import Mathlib

/-!
# EmbeddedSystemsI: PWM backlight driver (Lab 7) and pedometer counters (Lab 8)

A shallow embedding of `Lab7/lab7_Happy_Ndikumana.c` and `Lab8/Lab8/pedometer.c`.

* Memory-mapped registers are `volatile uint32_t` cells.  A register file is a
  record with one `Nat` field per register the code touches; every store keeps
  the low 32 bits (`w32`).  Reading a register returns the last value stored.
* The device header `tm4c123gh6pm.h` (and `pedometer.h`) is not part of the
  sources, so the bit masks it defines are a parameter (`Tm4c123`) of every
  function that uses one.
* `int32_t` values are `Int`; the conversions to and from a 32-bit register
  are `toU32` and `toI32` (twos complement).
* `double` arithmetic is IEEE-754 binary64.  The rounding direction is a mode
  of the floating-point environment and is a parameter of the operations;
  every value is computed in the default mode, round to nearest with ties to
  even (`roundNearestEven`).
-/

/-! ## 32-bit register arithmetic -/

/-- Store into a `volatile uint32_t` cell: the low 32 bits are kept. -/
def w32 (x : Nat) : Nat := x % 4294967296

/-- The C expression `~m` on a 32-bit operand. -/
def not32 (m : Nat) : Nat := 4294967295 ^^^ (m % 4294967296)

/-- The C statement `r |= m` on a 32-bit register: the new content of `r`. -/
def orEq (r m : Nat) : Nat := w32 (r ||| m)

/-- The C statement `r &= ~m` on a 32-bit register: the new content of `r`. -/
def andNotEq (r m : Nat) : Nat := w32 (r &&& not32 m)

/-- Conversion of an `int32_t` to the `uint32_t` stored in a register. -/
def toU32 (v : Int) : Nat := (v % 4294967296).toNat

/-- Conversion of a `uint32_t` register content to `int32_t` (twos complement). -/
def toI32 (n : Nat) : Int :=
  if n % 4294967296 < 2147483648 then ((n % 4294967296 : Nat) : Int)
  else ((n % 4294967296 : Nat) : Int) - 4294967296

/-- The values of type `int32_t` (and of `int` on the target). -/
def I32 (v : Int) : Prop := -2147483648 ≤ v ∧ v ≤ 2147483647

instance (v : Int) : Decidable (I32 v) := by unfold I32; exact inferInstance

/-! ## Device header constants -/

/-- The bit masks of the device header that the two source files use.  The
header is not part of the sources: the masks are parameters. -/
structure Tm4c123 where
  /-- Mask used by Lab 7. -/
  SYSCTL_RCGCPWM_R0 : Nat
  SYSCTL_RCGCGPIO_R1 : Nat
  SYSCTL_RCGCGPIO_R4 : Nat
  GPIO_PCTL_PB5_M : Nat
  GPIO_PCTL_PB4_M : Nat
  GPIO_PCTL_PB5_M0PWM3 : Nat
  GPIO_PCTL_PB4_M0PWM2 : Nat
  GPIO_PCTL_PE4_M : Nat
  GPIO_PCTL_PE5_M : Nat
  GPIO_PCTL_PE4_M0PWM4 : Nat
  GPIO_PCTL_PE5_M0PWM5 : Nat
  SYSCTL_SRPWM_R0 : Nat
  PWM_0_GENB_ACTCMPBD_ZERO : Nat
  PWM_0_GENB_ACTLOAD_ONE : Nat
  PWM_0_GENA_ACTCMPAD_ZERO : Nat
  PWM_0_GENA_ACTLOAD_ONE : Nat
  PWM_INVERT_PWM2INV : Nat
  PWM_INVERT_PWM3INV : Nat
  PWM_INVERT_PWM4INV : Nat
  PWM_INVERT_PWM5INV : Nat
  PWM_0_CTL_ENABLE : Nat
  PWM_ENABLE_PWM2EN : Nat
  PWM_ENABLE_PWM3EN : Nat
  PWM_ENABLE_PWM4EN : Nat
  PWM_ENABLE_PWM5EN : Nat
  /-- Mask used by Lab 8. -/
  TIMER_CTL_TAEN : Nat
  TIMER_TAMR_TAMR_CAP : Nat
  TIMER_TAMR_TACDIR : Nat
  TIMER_CTL_TAEVENT_POS : Nat
  TIMER_IMR_CAEIM : Nat
  SYSCTL_RCGCWTIMER_R0 : Nat
  SYSCTL_RCGCWTIMER_R1 : Nat
  SYSCTL_RCGCGPIO_R2 : Nat
  SYSCTL_RCGCGPIO_R5 : Nat
  FREQ_IN_MASK0 : Nat
  FREQ_IN_MASK1 : Nat
  GPIO_PCTL_PC6_M : Nat
  GPIO_PCTL_PC6_WT1CCP0 : Nat
  GPIO_PCTL_PC4_M : Nat
  GPIO_PCTL_PC4_WT0CCP0 : Nat

/-- The values the TM4C123GH6PM device header gives these masks (the two
`FREQ_IN` masks are the ones left in the comments of `pedometer.c`).  Used as
a concrete header wherever a theorem is instantiated. -/
def tm4c123gh6pm : Tm4c123 where
  SYSCTL_RCGCPWM_R0 := 0x1
  SYSCTL_RCGCGPIO_R1 := 0x2
  SYSCTL_RCGCGPIO_R4 := 0x10
  GPIO_PCTL_PB5_M := 0x00F00000
  GPIO_PCTL_PB4_M := 0x000F0000
  GPIO_PCTL_PB5_M0PWM3 := 0x00400000
  GPIO_PCTL_PB4_M0PWM2 := 0x00040000
  GPIO_PCTL_PE4_M := 0x000F0000
  GPIO_PCTL_PE5_M := 0x00F00000
  GPIO_PCTL_PE4_M0PWM4 := 0x00040000
  GPIO_PCTL_PE5_M0PWM5 := 0x00400000
  SYSCTL_SRPWM_R0 := 0x1
  PWM_0_GENB_ACTCMPBD_ZERO := 0x800
  PWM_0_GENB_ACTLOAD_ONE := 0xC
  PWM_0_GENA_ACTCMPAD_ZERO := 0x80
  PWM_0_GENA_ACTLOAD_ONE := 0xC
  PWM_INVERT_PWM2INV := 0x4
  PWM_INVERT_PWM3INV := 0x8
  PWM_INVERT_PWM4INV := 0x10
  PWM_INVERT_PWM5INV := 0x20
  PWM_0_CTL_ENABLE := 0x1
  PWM_ENABLE_PWM2EN := 0x4
  PWM_ENABLE_PWM3EN := 0x8
  PWM_ENABLE_PWM4EN := 0x10
  PWM_ENABLE_PWM5EN := 0x20
  TIMER_CTL_TAEN := 0x1
  TIMER_TAMR_TAMR_CAP := 0x3
  TIMER_TAMR_TACDIR := 0x10
  TIMER_CTL_TAEVENT_POS := 0x0
  TIMER_IMR_CAEIM := 0x4
  SYSCTL_RCGCWTIMER_R0 := 0x1
  SYSCTL_RCGCWTIMER_R1 := 0x2
  SYSCTL_RCGCGPIO_R2 := 0x4
  SYSCTL_RCGCGPIO_R5 := 0x20
  FREQ_IN_MASK0 := 64
  FREQ_IN_MASK1 := 16
  GPIO_PCTL_PC6_M := 0x0F000000
  GPIO_PCTL_PC6_WT1CCP0 := 0x07000000
  GPIO_PCTL_PC4_M := 0x000F0000
  GPIO_PCTL_PC4_WT0CCP0 := 0x00070000

/-! ## Lab 8: the pedometer counters (`pedometer.c`) -/

/-- The registers `pedometer.c` reads or writes. -/
structure TimerRegs where
  SYSCTL_RCGCWTIMER_R : Nat
  SYSCTL_RCGCGPIO_R : Nat
  GPIO_PORTC_AFSEL_R : Nat
  GPIO_PORTC_PCTL_R : Nat
  GPIO_PORTC_DEN_R : Nat
  WTIMER0_CTL_R : Nat
  WTIMER0_CFG_R : Nat
  WTIMER0_TAMR_R : Nat
  WTIMER0_IMR_R : Nat
  WTIMER0_TAV_R : Nat
  WTIMER1_CTL_R : Nat
  WTIMER1_CFG_R : Nat
  WTIMER1_TAMR_R : Nat
  WTIMER1_IMR_R : Nat
  WTIMER1_TAV_R : Nat
deriving DecidableEq

/-- `setTimerModeUp()`: wide timer 0 as an up-counting edge counter, count 0. -/
def setTimerModeUp (k : Tm4c123) (s : TimerRegs) : TimerRegs :=
  let s := { s with WTIMER0_CTL_R := andNotEq s.WTIMER0_CTL_R k.TIMER_CTL_TAEN }
  let s := { s with WTIMER0_CFG_R := w32 4 }
  let s := { s with WTIMER0_TAMR_R := w32 (k.TIMER_TAMR_TAMR_CAP ||| k.TIMER_TAMR_TACDIR) }
  let s := { s with WTIMER0_CTL_R := orEq s.WTIMER0_CTL_R k.TIMER_CTL_TAEVENT_POS }
  let s := { s with WTIMER0_IMR_R := andNotEq s.WTIMER0_IMR_R k.TIMER_IMR_CAEIM }
  let s := { s with WTIMER0_TAV_R := w32 0 }
  { s with WTIMER0_CTL_R := orEq s.WTIMER0_CTL_R k.TIMER_CTL_TAEN }

/-- `setTimerModeDown()`: wide timer 1 as a down-counting edge counter, count 400. -/
def setTimerModeDown (k : Tm4c123) (s : TimerRegs) : TimerRegs :=
  let s := { s with WTIMER1_CTL_R := andNotEq s.WTIMER1_CTL_R k.TIMER_CTL_TAEN }
  let s := { s with WTIMER1_CFG_R := w32 4 }
  let s := { s with WTIMER1_TAMR_R := w32 k.TIMER_TAMR_TAMR_CAP }
  let s := { s with WTIMER1_CTL_R := orEq s.WTIMER1_CTL_R k.TIMER_CTL_TAEVENT_POS }
  let s := { s with WTIMER1_IMR_R := andNotEq s.WTIMER1_IMR_R k.TIMER_IMR_CAEIM }
  let s := { s with WTIMER1_TAV_R := w32 400 }
  { s with WTIMER1_CTL_R := orEq s.WTIMER1_CTL_R k.TIMER_CTL_TAEN }

/-- `setEncoderPosition(id, position)`. -/
def setEncoderPosition (id : Nat) (position : Int) (s : TimerRegs) : TimerRegs :=
  if id = 1 then { s with WTIMER1_TAV_R := toU32 position }
  else if id = 0 then { s with WTIMER0_TAV_R := toU32 position }
  else s

/-- `getEncoderPosition(id)`. -/
def getEncoderPosition (id : Nat) (s : TimerRegs) : Int :=
  if id = 0 then toI32 s.WTIMER0_TAV_R
  else if id = 1 then toI32 s.WTIMER1_TAV_R
  else -1

/-- `selectEncoderIncMode(id)`. -/
def selectEncoderIncMode (k : Tm4c123) (id : Nat) (s : TimerRegs) : TimerRegs :=
  if id = 0 then
    let s := { s with WTIMER0_CTL_R := andNotEq s.WTIMER0_CTL_R k.TIMER_CTL_TAEN }
    let s := { s with WTIMER0_TAMR_R := orEq s.WTIMER0_TAMR_R k.TIMER_TAMR_TACDIR }
    { s with WTIMER0_CTL_R := orEq s.WTIMER0_CTL_R k.TIMER_CTL_TAEN }
  else if id = 1 then
    let s := { s with WTIMER1_CTL_R := andNotEq s.WTIMER1_CTL_R k.TIMER_CTL_TAEN }
    let s := { s with WTIMER1_TAMR_R := orEq s.WTIMER1_TAMR_R k.TIMER_TAMR_TACDIR }
    { s with WTIMER1_CTL_R := orEq s.WTIMER1_CTL_R k.TIMER_CTL_TAEN }
  else s

/-- `selectEncoderDecMode(id)`. -/
def selectEncoderDecMode (k : Tm4c123) (id : Nat) (s : TimerRegs) : TimerRegs :=
  if id = 0 then
    let s := { s with WTIMER0_CTL_R := andNotEq s.WTIMER0_CTL_R k.TIMER_CTL_TAEN }
    let s := { s with WTIMER0_TAMR_R := andNotEq s.WTIMER0_TAMR_R k.TIMER_TAMR_TACDIR }
    { s with WTIMER0_CTL_R := orEq s.WTIMER0_CTL_R k.TIMER_CTL_TAEN }
  else if id = 1 then
    let s := { s with WTIMER1_CTL_R := andNotEq s.WTIMER1_CTL_R k.TIMER_CTL_TAEN }
    let s := { s with WTIMER1_TAMR_R := andNotEq s.WTIMER1_TAMR_R k.TIMER_TAMR_TACDIR }
    { s with WTIMER1_CTL_R := orEq s.WTIMER1_CTL_R k.TIMER_CTL_TAEN }
  else s

/-- `initPedometer()`.  `_delay_cycles(3)` only spends time and touches no register. -/
def initPedometer (k : Tm4c123) (s : TimerRegs) : TimerRegs :=
  let s := { s with
    SYSCTL_RCGCWTIMER_R := orEq s.SYSCTL_RCGCWTIMER_R (k.SYSCTL_RCGCWTIMER_R1 ||| k.SYSCTL_RCGCWTIMER_R0) }
  let s := { s with
    SYSCTL_RCGCGPIO_R := orEq s.SYSCTL_RCGCGPIO_R (k.SYSCTL_RCGCGPIO_R2 ||| k.SYSCTL_RCGCGPIO_R5) }
  let s := { s with GPIO_PORTC_AFSEL_R := orEq s.GPIO_PORTC_AFSEL_R k.FREQ_IN_MASK0 }
  let s := { s with GPIO_PORTC_PCTL_R := andNotEq s.GPIO_PORTC_PCTL_R k.GPIO_PCTL_PC6_M }
  let s := { s with GPIO_PORTC_PCTL_R := orEq s.GPIO_PORTC_PCTL_R k.GPIO_PCTL_PC6_WT1CCP0 }
  let s := { s with GPIO_PORTC_DEN_R := orEq s.GPIO_PORTC_DEN_R k.FREQ_IN_MASK0 }
  let s := { s with GPIO_PORTC_AFSEL_R := orEq s.GPIO_PORTC_AFSEL_R k.FREQ_IN_MASK1 }
  let s := { s with GPIO_PORTC_PCTL_R := andNotEq s.GPIO_PORTC_PCTL_R k.GPIO_PCTL_PC4_M }
  let s := { s with GPIO_PORTC_PCTL_R := orEq s.GPIO_PORTC_PCTL_R k.GPIO_PCTL_PC4_WT0CCP0 }
  let s := { s with GPIO_PORTC_DEN_R := orEq s.GPIO_PORTC_DEN_R k.FREQ_IN_MASK1 }
  let s := setTimerModeUp k s
  let s := setTimerModeDown k s
  let s := setEncoderPosition 1 0 s
  let s := setEncoderPosition 0 0 s
  let s := selectEncoderIncMode k 1 s
  selectEncoderIncMode k 0 s

/-- A register file for `pedometer.c` with recognisable contents, used to
instantiate theorems. -/
def timerRegsSample : TimerRegs where
  SYSCTL_RCGCWTIMER_R := 0
  SYSCTL_RCGCGPIO_R := 0
  GPIO_PORTC_AFSEL_R := 0
  GPIO_PORTC_PCTL_R := 0
  GPIO_PORTC_DEN_R := 0
  WTIMER0_CTL_R := 0x1
  WTIMER0_CFG_R := 0x4
  WTIMER0_TAMR_R := 0x3
  WTIMER0_IMR_R := 0
  WTIMER0_TAV_R := 1234
  WTIMER1_CTL_R := 0x1
  WTIMER1_CFG_R := 0x4
  WTIMER1_TAMR_R := 0x13
  WTIMER1_IMR_R := 0
  WTIMER1_TAV_R := 4294967291


/-! ## Lab 7: the PWM backlight driver (`lab7_Happy_Ndikumana.c`) -/

/-- The registers `lab7_Happy_Ndikumana.c` reads or writes. -/
structure PwmRegs where
  SYSCTL_RCGCPWM_R : Nat
  SYSCTL_RCGCGPIO_R : Nat
  GPIO_PORTB_DIR_R : Nat
  GPIO_PORTB_DR2R_R : Nat
  GPIO_PORTB_DEN_R : Nat
  GPIO_PORTB_AFSEL_R : Nat
  GPIO_PORTB_PCTL_R : Nat
  GPIO_PORTE_DIR_R : Nat
  GPIO_PORTE_DR2R_R : Nat
  GPIO_PORTE_DEN_R : Nat
  GPIO_PORTE_AFSEL_R : Nat
  GPIO_PORTE_PCTL_R : Nat
  SYSCTL_SRPWM_R : Nat
  PWM0_1_CTL_R : Nat
  PWM0_2_CTL_R : Nat
  PWM0_1_GENA_R : Nat
  PWM0_1_GENB_R : Nat
  PWM0_2_GENA_R : Nat
  PWM0_2_GENB_R : Nat
  PWM0_1_LOAD_R : Nat
  PWM0_2_LOAD_R : Nat
  PWM0_INVERT_R : Nat
  PWM0_1_CMPA_R : Nat
  PWM0_1_CMPB_R : Nat
  PWM0_2_CMPA_R : Nat
  PWM0_2_CMPB_R : Nat
  PWM0_ENABLE_R : Nat
deriving DecidableEq

/-- PortB mask `RED_BL_LED_MASK`. -/
def RED_BL_LED_MASK : Nat := 32
/-- PortB mask `ORANGE_BL_LED_MASK`. -/
def ORANGE_BL_LED_MASK : Nat := 16
/-- PortE mask `BLUE_BL_LED_MASK`. -/
def BLUE_BL_LED_MASK : Nat := 16
/-- PortE mask `GREEN_BL_LED_MASK`. -/
def GREEN_BL_LED_MASK : Nat := 32

/-- `initializePwm()`.  The clock set-up routine `initSystemClockTo40Mhz` lives
outside the sources and is a parameter; `_delay_cycles(3)` only spends time. -/
def initializePwm (k : Tm4c123) (initSystemClockTo40Mhz : PwmRegs → PwmRegs)
    (s : PwmRegs) : PwmRegs :=
  s |> initSystemClockTo40Mhz
    |> (fun s => { s with SYSCTL_RCGCPWM_R := orEq s.SYSCTL_RCGCPWM_R k.SYSCTL_RCGCPWM_R0 })
    |> (fun s => { s with SYSCTL_RCGCGPIO_R := orEq s.SYSCTL_RCGCGPIO_R (k.SYSCTL_RCGCGPIO_R1 ||| k.SYSCTL_RCGCGPIO_R4) })
    |> (fun s => { s with GPIO_PORTB_DIR_R := orEq s.GPIO_PORTB_DIR_R (RED_BL_LED_MASK ||| ORANGE_BL_LED_MASK) })
    |> (fun s => { s with GPIO_PORTB_DR2R_R := orEq s.GPIO_PORTB_DR2R_R (RED_BL_LED_MASK ||| ORANGE_BL_LED_MASK) })
    |> (fun s => { s with GPIO_PORTB_DEN_R := orEq s.GPIO_PORTB_DEN_R (RED_BL_LED_MASK ||| ORANGE_BL_LED_MASK) })
    |> (fun s => { s with GPIO_PORTB_AFSEL_R := orEq s.GPIO_PORTB_AFSEL_R (RED_BL_LED_MASK ||| ORANGE_BL_LED_MASK) })
    |> (fun s => { s with GPIO_PORTB_PCTL_R := andNotEq s.GPIO_PORTB_PCTL_R (k.GPIO_PCTL_PB5_M ||| k.GPIO_PCTL_PB4_M) })
    |> (fun s => { s with GPIO_PORTB_PCTL_R := orEq s.GPIO_PORTB_PCTL_R (k.GPIO_PCTL_PB5_M0PWM3 ||| k.GPIO_PCTL_PB4_M0PWM2) })
    |> (fun s => { s with GPIO_PORTE_DIR_R := orEq s.GPIO_PORTE_DIR_R (GREEN_BL_LED_MASK ||| BLUE_BL_LED_MASK) })
    |> (fun s => { s with GPIO_PORTE_DR2R_R := orEq s.GPIO_PORTE_DR2R_R (GREEN_BL_LED_MASK ||| BLUE_BL_LED_MASK) })
    |> (fun s => { s with GPIO_PORTE_DEN_R := orEq s.GPIO_PORTE_DEN_R (GREEN_BL_LED_MASK ||| BLUE_BL_LED_MASK) })
    |> (fun s => { s with GPIO_PORTE_AFSEL_R := orEq s.GPIO_PORTE_AFSEL_R (GREEN_BL_LED_MASK ||| BLUE_BL_LED_MASK) })
    |> (fun s => { s with GPIO_PORTE_PCTL_R := andNotEq s.GPIO_PORTE_PCTL_R (k.GPIO_PCTL_PE4_M ||| k.GPIO_PCTL_PE5_M) })
    |> (fun s => { s with GPIO_PORTE_PCTL_R := orEq s.GPIO_PORTE_PCTL_R (k.GPIO_PCTL_PE4_M0PWM4 ||| k.GPIO_PCTL_PE5_M0PWM5) })
    |> (fun s => { s with SYSCTL_SRPWM_R := w32 k.SYSCTL_SRPWM_R0 })
    |> (fun s => { s with SYSCTL_SRPWM_R := w32 0 })
    |> (fun s => { s with PWM0_1_CTL_R := w32 0 })
    |> (fun s => { s with PWM0_2_CTL_R := w32 0 })
    |> (fun s => { s with PWM0_1_GENB_R := w32 (k.PWM_0_GENB_ACTCMPBD_ZERO ||| k.PWM_0_GENB_ACTLOAD_ONE) })
    |> (fun s => { s with PWM0_2_GENA_R := w32 (k.PWM_0_GENA_ACTCMPAD_ZERO ||| k.PWM_0_GENA_ACTLOAD_ONE) })
    |> (fun s => { s with PWM0_2_GENB_R := w32 (k.PWM_0_GENB_ACTCMPBD_ZERO ||| k.PWM_0_GENB_ACTLOAD_ONE) })
    |> (fun s => { s with PWM0_1_GENA_R := w32 (k.PWM_0_GENA_ACTCMPAD_ZERO ||| k.PWM_0_GENA_ACTLOAD_ONE) })
    |> (fun s => { s with PWM0_1_LOAD_R := w32 1024 })
    |> (fun s => { s with PWM0_2_LOAD_R := w32 1024 })
    |> (fun s => { s with PWM0_INVERT_R := w32 (k.PWM_INVERT_PWM3INV ||| k.PWM_INVERT_PWM4INV ||| k.PWM_INVERT_PWM5INV ||| k.PWM_INVERT_PWM2INV) })
    |> (fun s => { s with PWM0_1_CMPB_R := w32 512 })
    |> (fun s => { s with PWM0_1_CMPA_R := w32 512 })
    |> (fun s => { s with PWM0_2_CMPB_R := w32 512 })
    |> (fun s => { s with PWM0_2_CMPA_R := w32 512 })
    |> (fun s => { s with PWM0_1_CTL_R := w32 k.PWM_0_CTL_ENABLE })
    |> (fun s => { s with PWM0_2_CTL_R := w32 k.PWM_0_CTL_ENABLE })
    |> (fun s => { s with PWM0_ENABLE_R := w32 (k.PWM_ENABLE_PWM3EN ||| k.PWM_ENABLE_PWM4EN ||| k.PWM_ENABLE_PWM5EN ||| k.PWM_ENABLE_PWM2EN) })

/-- `setPwmDutyCycle(id, pwmA, pwmB)`.  The `uint16_t` arguments are promoted
to `int`, so `pwmA * 1024` cannot overflow; `/` truncates. -/
def setPwmDutyCycle (id : Nat) (pwmA pwmB : Nat) (s : PwmRegs) : PwmRegs :=
  if id = 0 then
    let s := { s with PWM0_1_CMPA_R := w32 ((pwmA * 1024) / 100) }
    { s with PWM0_1_CMPB_R := w32 ((pwmB * 1024) / 100) }
  else if id = 1 then
    let s := { s with PWM0_2_CMPA_R := w32 ((pwmA * 1024) / 100) }
    { s with PWM0_2_CMPB_R := w32 ((pwmB * 1024) / 100) }
  else s

/-- The register file with every register of the PWM driver cleared, used
to instantiate theorems. -/
def pwmRegsZero : PwmRegs where
  SYSCTL_RCGCPWM_R := 0
  SYSCTL_RCGCGPIO_R := 0
  GPIO_PORTB_DIR_R := 0
  GPIO_PORTB_DR2R_R := 0
  GPIO_PORTB_DEN_R := 0
  GPIO_PORTB_AFSEL_R := 0
  GPIO_PORTB_PCTL_R := 0
  GPIO_PORTE_DIR_R := 0
  GPIO_PORTE_DR2R_R := 0
  GPIO_PORTE_DEN_R := 0
  GPIO_PORTE_AFSEL_R := 0
  GPIO_PORTE_PCTL_R := 0
  SYSCTL_SRPWM_R := 0
  PWM0_1_CTL_R := 0
  PWM0_2_CTL_R := 0
  PWM0_1_GENA_R := 0
  PWM0_1_GENB_R := 0
  PWM0_2_GENA_R := 0
  PWM0_2_GENB_R := 0
  PWM0_1_LOAD_R := 0
  PWM0_2_LOAD_R := 0
  PWM0_INVERT_R := 0
  PWM0_1_CMPA_R := 0
  PWM0_1_CMPB_R := 0
  PWM0_2_CMPA_R := 0
  PWM0_2_CMPB_R := 0
  PWM0_ENABLE_R := 0

/-! ## Lab 8: `countBalance` and its `double` arithmetic -/

/-- A value of type `double` (IEEE-754 binary64): a finite number, an infinity
with its sign, or a NaN.  The sign of a zero is not tracked: `countBalance`
divides only by a converted `int`, which is never a negative zero, and no
other operation it uses depends on the sign of a zero operand. -/
inductive F64 where
  | fin (q : ℚ)
  | inf (neg : Bool)
  | nan
deriving DecidableEq

/-- Number of binary digits of `n` (`fuel` bounds the recursion; `n` is enough). -/
def bitLen : Nat → Nat → Nat
  | 0, _ => 0
  | fuel + 1, n => if n = 0 then 0 else bitLen fuel (n / 2) + 1

/-- Numerator and denominator of `n / (d * 2 ^ e)`. -/
def scaled (n d : Nat) (e : Int) : Nat × Nat :=
  if 0 ≤ e then (n, d * 2 ^ e.toNat) else (n * 2 ^ (-e).toNat, d)

/-- Round-to-nearest, ties-to-even, of the positive ratio `n / d` to a 53-bit
significand: the result `(m, e)` stands for `m * 2 ^ e`, where `e` is the
exponent of the last place (at least `-1074`, the subnormal exponent). -/
def roundMag (n d : Nat) : Nat × Int :=
  let l : Int := (bitLen n n : Int) - (bitLen d d : Int)
  let b : Int := if (scaled n d l).2 ≤ (scaled n d l).1 then l else l - 1
  let e : Int := max (b - 52) (-1074)
  let N := (scaled n d e).1
  let D := (scaled n d e).2
  let f := N / D
  let r := N % D
  (if 2 * r < D then f else if D < 2 * r then f + 1 else if f % 2 = 0 then f else f + 1, e)

/-- The binary64 result of an operation whose exact result is `q`, in the
default rounding mode (round to nearest, ties to even, overflow to infinity). -/
def roundNearestEven (q : ℚ) : F64 :=
  if q = 0 then F64.fin 0 else
  let me := roundMag q.num.natAbs q.den
  if 971 < me.2 ∨ (me.2 = 971 ∧ 9007199254740992 ≤ me.1) then F64.inf (decide (q < 0))
  else F64.fin ((if q < 0 then -1 else 1) * (me.1 : ℚ) * 2 ^ me.2)

/-- The conversion `(double)v` of an `int`: exact, every `int` being a binary64 number. -/
def F64.ofInt (v : Int) : F64 := F64.fin (v : ℚ)

/-- The `double` division `a / b`; `rnd` rounds the exact quotient. -/
def F64.div (rnd : ℚ → F64) : F64 → F64 → F64
  | F64.nan, _ => F64.nan
  | _, F64.nan => F64.nan
  | F64.inf _, F64.inf _ => F64.nan
  | F64.inf s, F64.fin q => F64.inf (xor s (decide (q < 0)))
  | F64.fin _, F64.inf _ => F64.fin 0
  | F64.fin p, F64.fin q =>
    if q = 0 then (if p = 0 then F64.nan else F64.inf (decide (p < 0))) else rnd (p / q)

/-- The `double` subtraction `a - b`; `rnd` rounds the exact difference. -/
def F64.sub (rnd : ℚ → F64) : F64 → F64 → F64
  | F64.nan, _ => F64.nan
  | _, F64.nan => F64.nan
  | F64.inf s, F64.inf t => if s = t then F64.nan else F64.inf s
  | F64.inf s, F64.fin _ => F64.inf s
  | F64.fin _, F64.inf t => F64.inf (!t)
  | F64.fin p, F64.fin q => rnd (p - q)

/-- The `double` multiplication `a * b`; `rnd` rounds the exact product. -/
def F64.mul (rnd : ℚ → F64) : F64 → F64 → F64
  | F64.nan, _ => F64.nan
  | _, F64.nan => F64.nan
  | F64.inf s, F64.inf t => F64.inf (xor s t)
  | F64.inf s, F64.fin q => if q = 0 then F64.nan else F64.inf (xor s (decide (q < 0)))
  | F64.fin p, F64.inf t => if p = 0 then F64.nan else F64.inf (xor (decide (p < 0)) t)
  | F64.fin p, F64.fin q => rnd (p * q)

/-- The cast `(int)x` of a `double`: the fraction is discarded (truncation
toward zero); the behaviour is undefined (`none`) when the truncated value
is not an `int`, and for an infinity or a NaN. -/
def F64.toInt : F64 → Option Int
  | F64.fin q => if I32 (q.num.tdiv q.den) then some (q.num.tdiv q.den) else none
  | F64.inf _ => none
  | F64.nan => none

/-- The `int` subtraction `a - b`; overflow is undefined behaviour (`none`). -/
def subInt (a b : Int) : Option Int := if I32 (a - b) then some (a - b) else none

/-- The local `percent` of `countBalance`: `(double)count0 / (double)count1` in
the branch for id 1 (line 61) and `(double)count1 / (double)count0` in the
branch for id 0 (line 70).  `countBalance` reads it in these two branches only. -/
def countBalancePercent (rnd : ℚ → F64) (id : Nat) (count0 count1 : Int) : F64 :=
  if id = 1 then F64.div rnd (F64.ofInt count0) (F64.ofInt count1)
  else F64.div rnd (F64.ofInt count1) (F64.ofInt count0)

/-- The local `percentDifference` of `countBalance`: `1 - percent` (lines 62 and 71). -/
def countBalancePercentDifference (rnd : ℚ → F64) (id : Nat) (count0 count1 : Int) : F64 :=
  F64.sub rnd (F64.ofInt 1) (countBalancePercent rnd id count0 count1)

/-- The local `temp` of `countBalance`: `(double)count1 * percentDifference` in
the branch for id 1 (line 63) and `(double)count0 * percentDifference` in the
branch for id 0 (line 72). -/
def countBalanceTemp (rnd : ℚ → F64) (id : Nat) (count0 count1 : Int) : F64 :=
  if id = 1 then
    F64.mul rnd (F64.ofInt count1) (countBalancePercentDifference rnd id count0 count1)
  else
    F64.mul rnd (F64.ofInt count0) (countBalancePercentDifference rnd id count0 count1)

/-- `countBalance(id, count0, count1)`: `count1 - (int)temp` for id 1,
`count0 - (int)temp` for id 0, and -1 otherwise.  `rnd` is the rounding of the
`double` operations; `none` is undefined behaviour. -/
def countBalance (rnd : ℚ → F64) (id : Nat) (count0 count1 : Int) : Option Int :=
  if id = 1 then
    (F64.toInt (countBalanceTemp rnd id count0 count1)).bind fun t => subInt count1 t
  else if id = 0 then
    (F64.toInt (countBalanceTemp rnd id count0 count1)).bind fun t => subInt count0 t
  else some (-1)

/-! ## Lemmas on 32-bit register arithmetic -/

theorem w32_of_lt (x : Nat) (h : x < 4294967296) : w32 x = x := by
  unfold w32; omega

theorem toI32_toU32 (v : Int) (h : I32 v) : toI32 (toU32 v) = v := by
  obtain ⟨h1, h2⟩ := h
  unfold toI32 toU32
  split_ifs with hlt <;> omega

theorem testBit_w32 (x i : Nat) : (w32 x).testBit i = (decide (i < 32) && x.testBit i) := by
  have h : (4294967296 : Nat) = 2 ^ 32 := by norm_num
  rw [w32, h, Nat.testBit_mod_two_pow]

theorem testBit_not32 (m i : Nat) :
    (not32 m).testBit i = (decide (i < 32) && !m.testBit i) := by
  have h : (4294967296 : Nat) = 2 ^ 32 := by norm_num
  have h1 : (4294967295 : Nat) = 2 ^ 32 - 1 := by norm_num
  rw [not32, h, h1, Nat.testBit_xor, Nat.testBit_mod_two_pow, Nat.testBit_two_pow_sub_one]
  by_cases hi : i < 32 <;> simp [hi]

theorem testBit_orEq (r m i : Nat) :
    (orEq r m).testBit i = (decide (i < 32) && (r.testBit i || m.testBit i)) := by
  rw [orEq, testBit_w32, Nat.testBit_or]

theorem testBit_andNotEq (r m i : Nat) :
    (andNotEq r m).testBit i = (decide (i < 32) && (r.testBit i && !m.testBit i)) := by
  rw [andNotEq, testBit_w32, Nat.testBit_and, testBit_not32]
  by_cases hi : i < 32 <;> simp [hi]

/-- Disabling and re-enabling a counter that was just disabled and re-enabled
leaves its control register as it is. -/
theorem reenable_idem (c e : Nat) :
    orEq (andNotEq (orEq (andNotEq c e) e) e) e = orEq (andNotEq c e) e := by
  apply Nat.eq_of_testBit_eq; intro i
  simp only [testBit_orEq, testBit_andNotEq]
  cases decide (i < 32) <;> cases c.testBit i <;> cases e.testBit i <;> rfl

/-- Clearing a mask right after setting it: the register with the mask bits cleared. -/
theorem andNotEq_orEq (t d : Nat) : andNotEq (orEq t d) d = orEq t d &&& not32 d := by
  apply Nat.eq_of_testBit_eq; intro i
  simp only [testBit_orEq, testBit_andNotEq, Nat.testBit_and, testBit_not32]
  cases decide (i < 32) <;> cases t.testBit i <;> cases d.testBit i <;> rfl

/-- After `r |= d` every bit of `d` is set in `r`. -/
theorem orEq_and_mask (t d : Nat) : orEq t d &&& w32 d = w32 d := by
  apply Nat.eq_of_testBit_eq; intro i
  simp only [testBit_orEq, Nat.testBit_and, testBit_w32]
  cases decide (i < 32) <;> cases t.testBit i <;> cases d.testBit i <;> rfl

/-- After `r &= ~d` every bit of `d` is clear in `r`. -/
theorem andNotEq_and_mask (t d : Nat) : andNotEq t d &&& w32 d = 0 := by
  apply Nat.eq_of_testBit_eq; intro i
  simp only [testBit_andNotEq, Nat.testBit_and, testBit_w32, Nat.zero_testBit]
  cases decide (i < 32) <;> cases t.testBit i <;> cases d.testBit i <;> rfl

/-! ## Lab 7: duty cycle -/

/-- C1 (as stated, refuted): the call `setPwmDutyCycle(1, 80, 100)` made by
`main` stores 1024 in compare B of generator 2, which is not in [0,1023]. -/
theorem setPwmDutyCycle_full_scale_is_1024 :
    (setPwmDutyCycle 1 80 100 pwmRegsZero).PWM0_2_CMPB_R = 1024 ∧
    ¬ (setPwmDutyCycle 1 80 100 pwmRegsZero).PWM0_2_CMPB_R ≤ 1023 := by
  decide

/-- C1 (amended): for every percentage `p` in [0,100] the compare value that
`setPwmDutyCycle` stores for `p`, in either compare register of either
generator, is `p * 1024 / 100`; it lies in [0,1024], and it lies in
[0,1023] exactly when `p ≤ 99`. -/
theorem setPwmDutyCycle_compare_range (s : PwmRegs) (p q : Nat) (hp : p ≤ 100) :
    (setPwmDutyCycle 0 p q s).PWM0_1_CMPA_R = p * 1024 / 100 ∧
    (setPwmDutyCycle 0 q p s).PWM0_1_CMPB_R = p * 1024 / 100 ∧
    (setPwmDutyCycle 1 p q s).PWM0_2_CMPA_R = p * 1024 / 100 ∧
    (setPwmDutyCycle 1 q p s).PWM0_2_CMPB_R = p * 1024 / 100 ∧
    p * 1024 / 100 ≤ 1024 ∧ (p * 1024 / 100 ≤ 1023 ↔ p ≤ 99) := by
  have hw : w32 (p * 1024 / 100) = p * 1024 / 100 := w32_of_lt _ (by omega)
  simp only [setPwmDutyCycle, if_true, if_false, one_ne_zero, hw, true_and]
  omega

/-- C1 (amended), instantiated at the full-scale percentage 100. -/
theorem setPwmDutyCycle_compare_range_witness :
    (100 : Nat) ≤ 100 ∧ (setPwmDutyCycle 1 80 100 pwmRegsZero).PWM0_2_CMPB_R = 100 * 1024 / 100 :=
  ⟨by decide, (setPwmDutyCycle_compare_range pwmRegsZero 100 80 (by decide)).2.2.2.1⟩

/-- C2: for 16-bit `pwmA`, `pwmB`, `setPwmDutyCycle` with id 0 leaves
`(pwmA*1024)/100` in compare A and `(pwmB*1024)/100` in compare B of PWM0
generator 1 and the compares of generator 2 unchanged; with id 1 it does the
same to generator 2 and leaves generator 1 unchanged.  After `initializePwm`,
`setPwmDutyCycle(1, 80, 0)` gives compare A = 819 and compare B = 0 in
generator 2, the compares of generator 1 still being 512. -/
theorem setPwmDutyCycle_writes_selected_block (k : Tm4c123)
    (initSystemClockTo40Mhz : PwmRegs → PwmRegs) (s : PwmRegs) (pwmA pwmB : Nat)
    (hA : pwmA < 65536) (hB : pwmB < 65536) :
    ((setPwmDutyCycle 0 pwmA pwmB s).PWM0_1_CMPA_R = pwmA * 1024 / 100 ∧
     (setPwmDutyCycle 0 pwmA pwmB s).PWM0_1_CMPB_R = pwmB * 1024 / 100 ∧
     (setPwmDutyCycle 0 pwmA pwmB s).PWM0_2_CMPA_R = s.PWM0_2_CMPA_R ∧
     (setPwmDutyCycle 0 pwmA pwmB s).PWM0_2_CMPB_R = s.PWM0_2_CMPB_R) ∧
    ((setPwmDutyCycle 1 pwmA pwmB s).PWM0_2_CMPA_R = pwmA * 1024 / 100 ∧
     (setPwmDutyCycle 1 pwmA pwmB s).PWM0_2_CMPB_R = pwmB * 1024 / 100 ∧
     (setPwmDutyCycle 1 pwmA pwmB s).PWM0_1_CMPA_R = s.PWM0_1_CMPA_R ∧
     (setPwmDutyCycle 1 pwmA pwmB s).PWM0_1_CMPB_R = s.PWM0_1_CMPB_R) ∧
    ((setPwmDutyCycle 1 80 0 (initializePwm k initSystemClockTo40Mhz s)).PWM0_2_CMPA_R = 819 ∧
     (setPwmDutyCycle 1 80 0 (initializePwm k initSystemClockTo40Mhz s)).PWM0_2_CMPB_R = 0 ∧
     (setPwmDutyCycle 1 80 0 (initializePwm k initSystemClockTo40Mhz s)).PWM0_1_CMPA_R = 512 ∧
     (setPwmDutyCycle 1 80 0 (initializePwm k initSystemClockTo40Mhz s)).PWM0_1_CMPB_R = 512) := by
  have hwA : w32 (pwmA * 1024 / 100) = pwmA * 1024 / 100 := w32_of_lt _ (by omega)
  have hwB : w32 (pwmB * 1024 / 100) = pwmB * 1024 / 100 := w32_of_lt _ (by omega)
  refine ⟨?_, ?_, ?_⟩
  · simp only [setPwmDutyCycle, if_true, hwA, hwB, and_self]
  · simp only [setPwmDutyCycle, if_true, if_false, one_ne_zero, hwA, hwB, and_self]
  · simp only [setPwmDutyCycle, initializePwm, if_true, if_false, one_ne_zero]
    decide

/-- C2, instantiated: the call `setPwmDutyCycle(0, 50, 100)` on the cleared register file. -/
theorem setPwmDutyCycle_writes_selected_block_witness :
    (50 : Nat) < 65536 ∧ (100 : Nat) < 65536 ∧
    (setPwmDutyCycle 0 50 100 pwmRegsZero).PWM0_1_CMPA_R = 50 * 1024 / 100 :=
  ⟨by decide, by decide,
    (setPwmDutyCycle_writes_selected_block tm4c123gh6pm id pwmRegsZero 50 100
      (by decide) (by decide)).1.1⟩

/-! ## Lab 8: counters -/

/-- C3: for an id other than 0 and 1, `setPwmDutyCycle`, `setEncoderPosition`,
`selectEncoderIncMode` and `selectEncoderDecMode` leave the whole register
file unchanged, whatever their other arguments; in particular the four PWM
compare registers keep their values. -/
theorem invalid_id_is_ignored (k : Tm4c123) (id : Nat) (h0 : id ≠ 0) (h1 : id ≠ 1)
    (pwmA pwmB : Nat) (position : Int) (p : PwmRegs) (t : TimerRegs) :
    setPwmDutyCycle id pwmA pwmB p = p ∧
    setEncoderPosition id position t = t ∧
    selectEncoderIncMode k id t = t ∧
    selectEncoderDecMode k id t = t ∧
    ((setPwmDutyCycle id pwmA pwmB p).PWM0_1_CMPA_R = p.PWM0_1_CMPA_R ∧
     (setPwmDutyCycle id pwmA pwmB p).PWM0_1_CMPB_R = p.PWM0_1_CMPB_R ∧
     (setPwmDutyCycle id pwmA pwmB p).PWM0_2_CMPA_R = p.PWM0_2_CMPA_R ∧
     (setPwmDutyCycle id pwmA pwmB p).PWM0_2_CMPB_R = p.PWM0_2_CMPB_R) := by
  simp [setPwmDutyCycle, setEncoderPosition, selectEncoderIncMode, selectEncoderDecMode, h0, h1]

/-- C3, instantiated at id 2. -/
theorem invalid_id_is_ignored_witness :
    (2 : Nat) ≠ 0 ∧ (2 : Nat) ≠ 1 ∧
    setPwmDutyCycle 2 80 100 pwmRegsZero = pwmRegsZero ∧
    setEncoderPosition 2 7 timerRegsSample = timerRegsSample :=
  ⟨by decide, by decide,
    (invalid_id_is_ignored tm4c123gh6pm 2 (by decide) (by decide) 80 100 7
      pwmRegsZero timerRegsSample).1,
    (invalid_id_is_ignored tm4c123gh6pm 2 (by decide) (by decide) 80 100 7
      pwmRegsZero timerRegsSample).2.1⟩

/-- C4: for every id and every `int32_t` value `v`, from any register file,
`getEncoderPosition(id)` right after `setEncoderPosition(id, v)` returns `v`
when id is 0 or 1 and -1 for any other id. -/
theorem getEncoderPosition_setEncoderPosition (id : Nat) (v : Int) (hv : I32 v)
    (s : TimerRegs) :
    getEncoderPosition id (setEncoderPosition id v s) = if id = 0 ∨ id = 1 then v else -1 := by
  by_cases h0 : id = 0
  · subst h0
    simp [getEncoderPosition, setEncoderPosition, toI32_toU32 v hv]
  · by_cases h1 : id = 1
    · subst h1
      simp [getEncoderPosition, setEncoderPosition, toI32_toU32 v hv]
    · simp [getEncoderPosition, setEncoderPosition, h0, h1]

/-- C4, instantiated at unit 1 and the most negative `int32_t`. -/
theorem getEncoderPosition_setEncoderPosition_witness :
    I32 (-2147483648) ∧
    getEncoderPosition 1 (setEncoderPosition 1 (-2147483648) timerRegsSample) =
      if (1 : Nat) = 0 ∨ (1 : Nat) = 1 then -2147483648 else -1 :=
  ⟨by decide, getEncoderPosition_setEncoderPosition 1 (-2147483648) (by decide) timerRegsSample⟩

/-- C5: from any register file, `getEncoderPosition(0)` is 0 after
`setTimerModeUp()` and `getEncoderPosition(1)` is 400 after `setTimerModeDown()`. -/
theorem getEncoderPosition_after_setTimerMode (k : Tm4c123) (s : TimerRegs) :
    getEncoderPosition 0 (setTimerModeUp k s) = 0 ∧
    getEncoderPosition 1 (setTimerModeDown k s) = 400 := by
  constructor
  · simp only [getEncoderPosition, setTimerModeUp, if_true]; decide
  · simp only [getEncoderPosition, setTimerModeDown, if_true, if_false, one_ne_zero]; decide

/-- C8: for unit 0 and for unit 1, from any register file,
`selectEncoderIncMode` followed by `selectEncoderDecMode` leaves the counter
value registers of both units as they were, and the register file it ends in
is the one after `selectEncoderIncMode` alone with the `TACDIR` bit of that
unit's mode register cleared: the bit is set after `selectEncoderIncMode`
and clear after `selectEncoderDecMode`. -/
theorem selectEncoderIncMode_then_DecMode (k : Tm4c123) (s : TimerRegs) :
    ((selectEncoderDecMode k 0 (selectEncoderIncMode k 0 s)).WTIMER0_TAV_R = s.WTIMER0_TAV_R ∧
     (selectEncoderDecMode k 0 (selectEncoderIncMode k 0 s)).WTIMER1_TAV_R = s.WTIMER1_TAV_R ∧
     selectEncoderDecMode k 0 (selectEncoderIncMode k 0 s) =
       { selectEncoderIncMode k 0 s with
         WTIMER0_TAMR_R :=
           (selectEncoderIncMode k 0 s).WTIMER0_TAMR_R &&& not32 k.TIMER_TAMR_TACDIR } ∧
     (selectEncoderIncMode k 0 s).WTIMER0_TAMR_R &&& w32 k.TIMER_TAMR_TACDIR =
       w32 k.TIMER_TAMR_TACDIR ∧
     (selectEncoderDecMode k 0 (selectEncoderIncMode k 0 s)).WTIMER0_TAMR_R
       &&& w32 k.TIMER_TAMR_TACDIR = 0) ∧
    ((selectEncoderDecMode k 1 (selectEncoderIncMode k 1 s)).WTIMER0_TAV_R = s.WTIMER0_TAV_R ∧
     (selectEncoderDecMode k 1 (selectEncoderIncMode k 1 s)).WTIMER1_TAV_R = s.WTIMER1_TAV_R ∧
     selectEncoderDecMode k 1 (selectEncoderIncMode k 1 s) =
       { selectEncoderIncMode k 1 s with
         WTIMER1_TAMR_R :=
           (selectEncoderIncMode k 1 s).WTIMER1_TAMR_R &&& not32 k.TIMER_TAMR_TACDIR } ∧
     (selectEncoderIncMode k 1 s).WTIMER1_TAMR_R &&& w32 k.TIMER_TAMR_TACDIR =
       w32 k.TIMER_TAMR_TACDIR ∧
     (selectEncoderDecMode k 1 (selectEncoderIncMode k 1 s)).WTIMER1_TAMR_R
       &&& w32 k.TIMER_TAMR_TACDIR = 0) := by
  refine ⟨⟨rfl, rfl, ?_, ?_, ?_⟩, ⟨rfl, rfl, ?_, ?_, ?_⟩⟩
  · simp only [selectEncoderDecMode, selectEncoderIncMode, if_true, reenable_idem,
      ← andNotEq_orEq]
  · simp only [selectEncoderIncMode, if_true, orEq_and_mask]
  · simp only [selectEncoderDecMode, selectEncoderIncMode, if_true, andNotEq_and_mask]
  · simp only [selectEncoderDecMode, selectEncoderIncMode, if_true, if_false, one_ne_zero,
      reenable_idem, ← andNotEq_orEq]
  · simp only [selectEncoderIncMode, if_true, if_false, one_ne_zero, orEq_and_mask]
  · simp only [selectEncoderDecMode, selectEncoderIncMode, if_true, if_false, one_ne_zero,
      andNotEq_and_mask]

/-- C9: after `initPedometer()`, from any register file, both counters read 0. -/
theorem getEncoderPosition_after_initPedometer (k : Tm4c123) (s : TimerRegs) :
    getEncoderPosition 0 (initPedometer k s) = 0 ∧
    getEncoderPosition 1 (initPedometer k s) = 0 := by
  constructor
  · simp only [getEncoderPosition, initPedometer, selectEncoderIncMode, setEncoderPosition,
      if_true, if_false, one_ne_zero, zero_ne_one]
    decide
  · simp only [getEncoderPosition, initPedometer, selectEncoderIncMode, setEncoderPosition,
      if_true, if_false, one_ne_zero, zero_ne_one]
    decide

/-! ## Lab 8: `countBalance` -/

theorem F64.div_fin (rnd : ℚ → F64) (p q : ℚ) (h : q ≠ 0) :
    F64.div rnd (F64.fin p) (F64.fin q) = rnd (p / q) := by
  simp [F64.div, h]

theorem F64.sub_fin (rnd : ℚ → F64) (p q : ℚ) :
    F64.sub rnd (F64.fin p) (F64.fin q) = rnd (p - q) := rfl

theorem F64.mul_fin (rnd : ℚ → F64) (p q : ℚ) :
    F64.mul rnd (F64.fin p) (F64.fin q) = rnd (p * q) := rfl

/-- The cast `(int)x` of a `double` holding the `int` value `z` is `z`. -/
theorem F64.toInt_intCast (z : Int) (h : I32 z) : F64.toInt (F64.fin (z : ℚ)) = some z := by
  simp [F64.toInt, h]

/-- Evaluation of `roundNearestEven` from the numerator and denominator of its
argument and the significand and exponent `roundMag` finds for them. -/
theorem roundNearestEven_eval (q : ℚ) (n d m : Nat) (e : Int) (hq : q ≠ 0)
    (hn : q.num.natAbs = n) (hd : q.den = d) (hm : roundMag n d = (m, e))
    (hfin : ¬ (971 < e ∨ (e = 971 ∧ 9007199254740992 ≤ m))) :
    roundNearestEven q = F64.fin ((if q < 0 then -1 else 1) * (m : ℚ) * 2 ^ e) := by
  simp only [roundNearestEven, hn, hd, hm, if_neg hq, if_neg hfin]

/-- In binary64 arithmetic every step of `countBalance(1, 100, 80)` is exact:
`100.0 / 80.0 = 1.25`, `1 - 1.25 = -0.25`, `80.0 * -0.25 = -20.0`, and the
result is `80 - (-20) = 100`. -/
theorem countBalance_binary64_1_100_80 :
    countBalance roundNearestEven 1 100 80 = some 100 := by
  have h1 : roundNearestEven (((100 : Int) : ℚ) / ((80 : Int) : ℚ)) = F64.fin (5 / 4) := by
    rw [roundNearestEven_eval _ 5 4 5629499534213120 (-52) (by norm_num) (by norm_num)
      (by norm_num) (by decide) (by decide)]
    norm_num
  have h2 : roundNearestEven (((1 : Int) : ℚ) - 5 / 4) = F64.fin (-1 / 4) := by
    rw [roundNearestEven_eval _ 1 4 4503599627370496 (-54) (by norm_num) (by norm_num)
      (by norm_num) (by decide) (by decide)]
    norm_num
  have h3 : roundNearestEven (((80 : Int) : ℚ) * (-1 / 4)) = F64.fin ((-20 : Int) : ℚ) := by
    rw [roundNearestEven_eval _ 20 1 5629499534213120 (-48) (by norm_num) (by norm_num)
      (by norm_num) (by decide) (by decide)]
    norm_num
  have hz : ((80 : Int) : ℚ) ≠ 0 := by norm_num
  simp only [countBalance, countBalanceTemp, countBalancePercentDifference, countBalancePercent,
    if_true, F64.ofInt, F64.div_fin _ _ _ hz, h1, F64.sub_fin, h2,
    F64.mul_fin, h3, F64.toInt_intCast (-20) (by decide)]
  decide

/-- C6 (as stated, refuted): `countBalance(1, 100, 80)` does not return 80. -/
theorem countBalance_1_100_80_ne_80 : countBalance roundNearestEven 1 100 80 ≠ some 80 := by
  rw [countBalance_binary64_1_100_80]; decide

/-- C6 (amended): `countBalance(1, 100, 80)` returns 100, the value of `count0`
(the count that is not the reference). -/
theorem countBalance_1_100_80_eq_100 : countBalance roundNearestEven 1 100 80 = some 100 :=
  countBalance_binary64_1_100_80

/-- With reference id 0 and `count0 = 0` the local `temp` is a NaN for every
`count1` and every rounding mode: the quotient `count1 / 0.0` is an infinity
(a NaN when `count1` is 0 too) and nothing guards the operations after it. -/
theorem countBalanceTemp_zero_reference (rnd : ℚ → F64) (count1 : Int) :
    countBalanceTemp rnd 0 0 count1 = F64.nan := by
  by_cases h : count1 = 0
  · subst h
    simp [countBalanceTemp, countBalancePercentDifference, countBalancePercent, F64.ofInt,
      F64.div, F64.sub, F64.mul]
  · have hq : (count1 : ℚ) ≠ 0 := by exact_mod_cast h
    simp [countBalanceTemp, countBalancePercentDifference, countBalancePercent, F64.ofInt,
      F64.div, F64.sub, F64.mul, hq]

/-- C10: in the call `countBalance(0, 0, 50)` the local `percent` is the
quotient `50.0 / 0.0`, a division by zero that no guard precedes, and its value
is `+inf`; `percentDifference` is `-inf` and `temp` is a NaN, whatever the
rounding mode.  The arithmetic produces these non-finite values and goes on:
the value returned is `count0 - (int)temp` for that `temp`. -/
theorem countBalance_0_0_50_division_by_zero (rnd : ℚ → F64) :
    countBalancePercent rnd 0 0 50 = F64.div rnd (F64.ofInt 50) (F64.ofInt 0) ∧
    countBalancePercent rnd 0 0 50 = F64.inf false ∧
    countBalancePercentDifference rnd 0 0 50 = F64.inf true ∧
    countBalanceTemp rnd 0 0 50 = F64.nan ∧
    countBalance rnd 0 0 50 =
      (F64.toInt (countBalanceTemp rnd 0 0 50)).bind fun t => subInt 0 t := by
  refine ⟨?_, ?_, ?_, ?_, ?_⟩
  · simp [countBalancePercent]
  · simp [countBalancePercent, F64.ofInt, F64.div]
  · simp [countBalancePercentDifference, countBalancePercent, F64.ofInt, F64.div, F64.sub]
  · simp [countBalanceTemp, countBalancePercentDifference, countBalancePercent, F64.ofInt,
      F64.div, F64.sub, F64.mul]
  · simp [countBalance]
